import Mathlib

/-!
Verification development for the authentication/session-token subsystem of a
contacts-management REST backend (FastAPI + python-jose JWT + Redis cache +
SQLAlchemy user store).

The definitions below are a shallow embedding of:
  * `src/services/auth.py`   — class `Auth` (token codec, hashing, identity cache)
  * `src/repository/users.py` — persistent user-store operations
  * `src/routes/auth.py`      — signup / login / refresh / confirm routes

Time is modelled as natural-number epoch seconds.  JWT tokens are modelled as
an inductive type: a token is either a payload signed under some key, or an
undecodable blob; `jwt.decode` succeeds exactly when the signing key matches
the secret and the `exp` claim has not passed (python-jose raises
`ExpiredSignatureError`, a subclass of `JWTError`, when `exp < now`).
Raised `HTTPException`s become an error constructor carrying status and detail;
unhandled Python exceptions (`KeyError`, `AttributeError`, Redis connection
errors) become a distinct `crash` constructor.
-/

namespace HW14

/-- HTTP error as raised by FastAPI `HTTPException`: status code plus detail. -/
structure HTTPError where
  status_code : Nat
  detail : String
deriving DecidableEq, Repr

/-- Result of an operation: a value, a raised `HTTPException`, or an unhandled
Python exception (e.g. `AttributeError` on `None`, `KeyError`, a Redis
connection error) that escapes as a 500. -/
inductive Outcome (α : Type) where
  | ok : α → Outcome α
  | err : HTTPError → Outcome α
  | crash : Outcome α
deriving DecidableEq, Repr

/-- `true` iff the outcome is a successful value. -/
def Outcome.isOk {α : Type} : Outcome α → Bool
  | .ok _ => true
  | _ => false

/-- JWT claim set as built by the `Auth` token creators: `sub`, `iat`, `exp`,
`scope`.  `sub` and `scope` are optional because an arbitrary presented token
need not carry them (`payload.get` / `payload[...]` in the decoders). -/
structure Payload where
  sub : Option String
  iat : Nat
  exp : Nat
  scope : Option String
deriving DecidableEq, Repr

/-- An encoded JWT as seen by the decoders: either a payload signed under a
key (`jwt.encode(payload, key, algorithm)`), or an undecodable/malformed blob. -/
inductive Token where
  | signed (key : String) (p : Payload)
  | malformed (s : String)
deriving DecidableEq, Repr

/-- The shared signing secret `Auth.SECRET_KEY` (from settings). -/
def SECRET_KEY : String := "secret_key"

/-- `jose.jwt.decode(token, key, algorithms)`: fails (raises a `JWTError`)
when the token is malformed, the signature key does not match, or the `exp`
claim is in the past (`ExpiredSignatureError`, a `JWTError` subclass, raised
iff `exp < now`). -/
def jwtDecode (now : Nat) (key : String) : Token → Except String Payload
  | .malformed _ => .error "malformed"
  | .signed k p =>
      if k ≠ key then .error "signature"
      else if p.exp < now then .error "expired"
      else .ok p

/-- `Auth.create_access_token(data={"sub": sub}, expires_delta)`:
`exp = now + expires_delta` seconds when `expires_delta` is truthy, else
`now + 15 minutes`; scope `"access_token"`.  (Python truthiness: an
`expires_delta` of `0` falls back to the default.) -/
def create_access_token (now : Nat) (sub : String) (expires_delta : Option Nat) : Token :=
  let expire : Nat :=
    match expires_delta with
    | some d => if d = 0 then now + 15 * 60 else now + d
    | none => now + 15 * 60
  .signed SECRET_KEY { sub := some sub, iat := now, exp := expire, scope := some "access_token" }

/-- `Auth.create_refresh_token(data={"sub": sub}, expires_delta)`:
`exp = now + expires_delta` seconds when truthy, else `now + 7 days`;
scope `"refresh_token"`. -/
def create_refresh_token (now : Nat) (sub : String) (expires_delta : Option Nat) : Token :=
  let expire : Nat :=
    match expires_delta with
    | some d => if d = 0 then now + 7 * 24 * 60 * 60 else now + d
    | none => now + 7 * 24 * 60 * 60
  .signed SECRET_KEY { sub := some sub, iat := now, exp := expire, scope := some "refresh_token" }

/-- `Auth.create_email_token(data={"sub": sub})`: fixed ttl of 3 days,
scope `"email_token"`. -/
def create_email_token (now : Nat) (sub : String) : Token :=
  .signed SECRET_KEY { sub := some sub, iat := now, exp := now + 3 * 24 * 60 * 60,
                       scope := some "email_token" }

/-- The `exp` claim of a token our issuers produced (used to phrase expiry). -/
def tokenExp : Token → Nat
  | .signed _ p => p.exp
  | .malformed _ => 0

/-- The 401 "Could not validate credentials" exception built at the top of
`Auth.get_current_user`. -/
def credentials_exception : HTTPError :=
  { status_code := 401, detail := "Could not validate credentials" }

/-- The token-validation part of `Auth.get_current_user` (before the cache
lookup): decode under the secret; require `payload.get("scope") ==
"access_token"` and a present `sub`; every failure raises the one
`credentials_exception`. -/
def decodeAccessScope (now : Nat) (token : Token) : Outcome String :=
  match jwtDecode now SECRET_KEY token with
  | .error _ => .err credentials_exception
  | .ok p =>
      if p.scope = some "access_token" then
        match p.sub with
        | none => .err credentials_exception
        | some email => .ok email
      else .err credentials_exception

/-- `Auth.decode_refresh_token`: decode under the secret; on `JWTError` raise
401 "Could not validate credentials"; if `payload['scope']` is not
`"refresh_token"` raise 401 "Invalid scope for token"; else return
`payload['sub']`.  A signed payload missing the `scope` or `sub` key makes
`payload[...]` raise `KeyError`, which is not a `JWTError` and escapes
(modelled as `crash`). -/
def decode_refresh_token (now : Nat) (token : Token) : Outcome String :=
  match jwtDecode now SECRET_KEY token with
  | .error _ => .err { status_code := 401, detail := "Could not validate credentials" }
  | .ok p =>
      match p.scope with
      | none => .crash
      | some s =>
          if s = "refresh_token" then
            match p.sub with
            | none => .crash
            | some email => .ok email
          else .err { status_code := 401, detail := "Invalid scope for token" }

/-- `Auth.get_email_from_token`: decode under the secret; on `JWTError` raise
**422** "Invalid token for email verification"; if `payload['scope']` is not
`"email_token"` raise **401** "Invalid scope to token"; else return
`payload['sub']`.  Missing `scope`/`sub` keys raise `KeyError` (crash). -/
def get_email_from_token (now : Nat) (token : Token) : Outcome String :=
  match jwtDecode now SECRET_KEY token with
  | .error _ => .err { status_code := 422, detail := "Invalid token for email verification" }
  | .ok p =>
      match p.scope with
      | none => .crash
      | some s =>
          if s = "email_token" then
            match p.sub with
            | none => .crash
            | some email => .ok email
          else .err { status_code := 401, detail := "Invalid scope to token" }

/-- A row of the persistent user store (`src/database/models.py` `User`).
`refresh_token` stores the encoded refresh JWT last issued to the user, or
nothing. -/
structure User where
  id : Nat
  username : String
  email : String
  password : String
  confirmed : Bool
  refresh_token : Option Token
  avatar : String
deriving DecidableEq, Repr

/-- The persistent store: the rows of the `users` table. -/
abbrev DB := List User

/-- `repository.users.get_user_by_email`: first user whose `email` matches,
or nothing (`query.filter_by(email=email).first()`). -/
def get_user_by_email (email : String) (db : DB) : Option User :=
  db.find? (fun u => u.email = email)

/-- `Auth.get_password_hash` / passlib bcrypt, modelled as a deterministic
injective tag on the password (the hasher is an external collaborator; the
spec's contract is that `verify(p, hash(p))` holds and the hash is not the
plaintext). -/
def get_password_hash (password : String) : String :=
  "bcrypt$" ++ password

/-- `Auth.verify_password`: true iff the plaintext reproduces the stored
hash. -/
def verify_password (plain : String) (hashed : String) : Bool :=
  hashed = get_password_hash plain

/-- The signup request body (`schemas.UserModel`): username, password, email. -/
structure UserModel where
  username : String
  password : String
  email : String
deriving DecidableEq, Repr

/-- `libgravatar.Gravatar(email).get_image()`, an external collaborator:
modelled as a deterministic URL derived from the email. -/
def gravatar (email : String) : String :=
  "https://www.gravatar.com/avatar/" ++ email

/-- Modelled from the spec: the `User` ORM model class
(`src/database/models.py`) is not among the sources, so the column defaults
of a freshly inserted row follow the spec — the database assigns a fresh
numeric id, `confirmed` starts false ("confirmed: boolean, starts false,
monotonically transitions to true once") and `refresh_token` starts null. -/
def newUserRow (body : UserModel) (db : DB) : User :=
  { id := db.length + 1
    username := body.username
    email := body.email
    password := body.password
    confirmed := false
    refresh_token := none
    avatar := gravatar body.email }

/-- `repository.users.create_user`: build `User(**body.dict(), avatar=...)`
(avatar from Gravatar), insert, commit, refresh; returns the new row and the
updated store. -/
def create_user (body : UserModel) (db : DB) : User × DB :=
  let new_user : User := newUserRow body db
  (new_user, db ++ [new_user])

/-- `repository.users.update_token`: set `user.refresh_token = refresh_token`
on the fetched row and commit. -/
def update_token (user : User) (refresh_token : Option Token) (db : DB) : DB :=
  db.map (fun u => if u.id = user.id then { u with refresh_token := refresh_token } else u)

/-- `repository.users.confirmed_email`: re-fetch the user by email and set
`confirmed = True`; if no such user exists, `user.confirmed = True` on `None`
raises `AttributeError` (crash). -/
def repo_confirmed_email (email : String) (db : DB) : Outcome DB :=
  match get_user_by_email email db with
  | none => .crash
  | some user =>
      .ok (db.map (fun u => if u.id = user.id then { u with confirmed := true } else u))

/-- State of the Redis identity cache (`Auth.r`).  `entries` maps the key
(the email; the code prefixes it with `"user:"` uniformly, which we drop) to
the pickled user snapshot and its absolute expiry instant.  `getFails` /
`setFails` model a backend outage on reads / writes: the corresponding client
call raises a connection error. -/
structure Cache where
  entries : List (String × User × Nat)
  getFails : Bool
  setFails : Bool
deriving DecidableEq, Repr

/-- Live lookup in the cache at instant `now`: the first entry for the key
whose expiry has not passed.  (Redis drops a key once its TTL elapses.) -/
def cacheLookup (now : Nat) (c : Cache) (key : String) : Option User :=
  match c.entries.find? (fun e => e.1 = key) with
  | none => none
  | some e => if now < e.2.2 then some e.2.1 else none

/-- `Auth.r.get(f"user:{email}")`: crashes when the backend is down, else
returns the live entry (or nothing). -/
def redisGet (now : Nat) (c : Cache) (key : String) : Outcome (Option User) :=
  if c.getFails then .crash else .ok (cacheLookup now c key)

/-- `Auth.r.set(key, pickle.dumps(user))` followed by
`Auth.r.expire(key, 900)`: crashes when the backend is down, else stores the
snapshot with expiry `now + 900`. -/
def redisSetWithTTL (now : Nat) (c : Cache) (key : String) (u : User) : Outcome Cache :=
  if c.setFails then .crash
  else .ok { c with entries := (key, u, now + 900) :: c.entries.filter (fun e => e.1 ≠ key) }

/-- `Auth.get_current_user`: validate/decode the bearer token with expected
scope `access_token`; then resolve the subject via the Redis cache, falling
back to the persistent store on a miss, writing the fetched snapshot back
with a 900 s TTL; a store miss raises the `credentials_exception`.  Redis
client errors are not caught anywhere in the function and escape (crash).
Returns the resolved user and the resulting cache state. -/
def get_current_user (now : Nat) (token : Token) (db : DB) (c : Cache) :
    Outcome (User × Cache) :=
  match decodeAccessScope now token with
  | .err e => .err e
  | .crash => .crash
  | .ok email =>
      match redisGet now c email with
      | .crash => .crash
      | .err e => .err e
      | .ok (some cached) => .ok (cached, c)
      | .ok none =>
          match get_user_by_email email db with
          | none => .err credentials_exception
          | some user =>
              match redisSetWithTTL now c email user with
              | .crash => .crash
              | .err e => .err e
              | .ok c2 => .ok (user, c2)

/-- The token pair returned by `login` / `refresh_token`
(`schemas.TokenModel`). -/
structure TokenModel where
  access_token : Token
  refresh_token : Token
  token_type : String
deriving DecidableEq, Repr

/-- Result of a route handler: its outcome together with the persistent-store
state after the call (route handlers mutate the store through the
repository). -/
structure RouteResult (α : Type) where
  out : Outcome α
  db : DB

/-- `routes.auth.signup`: 409 "Account already exists" when a user with that
email exists; else hash the password into the body, create the user, schedule
the verification email (external, no store effect) and return the new user. -/
def signup (body : UserModel) (db : DB) : RouteResult User :=
  match get_user_by_email body.email db with
  | some _ => { out := .err { status_code := 409, detail := "Account already exists" }, db := db }
  | none =>
      let body2 := { body with password := get_password_hash body.password }
      let (new_user, db2) := create_user body2 db
      { out := .ok new_user, db := db2 }

/-- `routes.auth.login`: look up by email (the form's `username` field);
401 "Invalid email" when absent, 401 "Email is not confirmed" when not
confirmed, 401 "Invalid password" when verification fails; else issue an
access and a refresh token with default lifetimes, persist the refresh token
and return the pair. -/
def login (now : Nat) (username password : String) (db : DB) : RouteResult TokenModel :=
  match get_user_by_email username db with
  | none => { out := .err { status_code := 401, detail := "Invalid email" }, db := db }
  | some user =>
      if !user.confirmed then
        { out := .err { status_code := 401, detail := "Email is not confirmed" }, db := db }
      else if !verify_password password user.password then
        { out := .err { status_code := 401, detail := "Invalid password" }, db := db }
      else
        let access_token := create_access_token now user.email none
        let refresh_token := create_refresh_token now user.email none
        let db2 := update_token user (some refresh_token) db
        { out := .ok { access_token := access_token, refresh_token := refresh_token,
                       token_type := "bearer" }
          db := db2 }

/-- `routes.auth.refresh_token`: decode the bearer as a refresh token; fetch
the user by the decoded subject — with **no** `None` check, so an absent user
makes `user.refresh_token` raise `AttributeError` (crash).  If the presented
token differs from the stored one, clear the stored token and raise 401
"Invalid refresh token"; else issue a fresh pair, persist the new refresh
token and return both. -/
def refresh_token_route (now : Nat) (token : Token) (db : DB) : RouteResult TokenModel :=
  match decode_refresh_token now token with
  | .err e => { out := .err e, db := db }
  | .crash => { out := .crash, db := db }
  | .ok email =>
      match get_user_by_email email db with
      | none => { out := .crash, db := db }
      | some user =>
          if user.refresh_token ≠ some token then
            { out := .err { status_code := 401, detail := "Invalid refresh token" }
              db := update_token user none db }
          else
            let access_token := create_access_token now email none
            let new_refresh := create_refresh_token now email none
            { out := .ok { access_token := access_token, refresh_token := new_refresh,
                           token_type := "bearer" }
              db := update_token user (some new_refresh) db }

/-- `routes.auth.confirmed_email`: decode the email-verification token; 400
"Verification error" when the subject has no user; "Your email is already
confirmed" (no store effect) when already confirmed; else set `confirmed`
and report "Email was confirmed". -/
def confirmed_email_route (now : Nat) (token : Token) (db : DB) : RouteResult String :=
  match get_email_from_token now token with
  | .err e => { out := .err e, db := db }
  | .crash => { out := .crash, db := db }
  | .ok email =>
      match get_user_by_email email db with
      | none => { out := .err { status_code := 400, detail := "Verification error" }, db := db }
      | some user =>
          if user.confirmed then
            { out := .ok "Your email is already confirmed", db := db }
          else
            match repo_confirmed_email email db with
            | .crash => { out := .crash, db := db }
            | .err e => { out := .err e, db := db }
            | .ok db2 => { out := .ok "Email was confirmed", db := db2 }

/-- `repository.users.update_avatar`: re-fetch by email, set the avatar URL,
commit; `AttributeError` (crash) when the user is absent. -/
def update_avatar (email : String) (url : String) (db : DB) : Outcome DB :=
  match get_user_by_email email db with
  | none => .crash
  | some user =>
      .ok (db.map (fun u => if u.id = user.id then { u with avatar := url } else u))

/-! ### Helper lemmas -/

theorem jwtDecode_signed_own (now : Nat) (p : Payload) :
    jwtDecode now SECRET_KEY (Token.signed SECRET_KEY p) =
      if p.exp < now then Except.error "expired" else Except.ok p := by
  simp [jwtDecode]

theorem decodeAccessScope_not_ok_of_wrong_scope (now : Nat) (p : Payload)
    (h : p.scope ≠ some "access_token") :
    (decodeAccessScope now (Token.signed SECRET_KEY p)).isOk = false := by
  unfold decodeAccessScope
  rw [jwtDecode_signed_own]
  by_cases hexp : p.exp < now
  · simp [hexp, Outcome.isOk]
  · simp [hexp, h, Outcome.isOk]

theorem decode_refresh_token_not_ok_of_wrong_scope (now : Nat) (p : Payload)
    (h : p.scope ≠ some "refresh_token") :
    (decode_refresh_token now (Token.signed SECRET_KEY p)).isOk = false := by
  unfold decode_refresh_token
  rw [jwtDecode_signed_own]
  by_cases hexp : p.exp < now
  · simp [hexp, Outcome.isOk]
  · cases hs : p.scope with
    | none => simp [hexp, hs, Outcome.isOk]
    | some s =>
        have hsne : s ≠ "refresh_token" := by
          intro hcontra
          exact h (by simp [hs, hcontra])
        simp [hexp, hs, hsne, Outcome.isOk]

theorem get_email_from_token_not_ok_of_wrong_scope (now : Nat) (p : Payload)
    (h : p.scope ≠ some "email_token") :
    (get_email_from_token now (Token.signed SECRET_KEY p)).isOk = false := by
  unfold get_email_from_token
  rw [jwtDecode_signed_own]
  by_cases hexp : p.exp < now
  · simp [hexp, Outcome.isOk]
  · cases hs : p.scope with
    | none => simp [hexp, hs, Outcome.isOk]
    | some s =>
        have hsne : s ≠ "email_token" := by
          intro hcontra
          exact h (by simp [hs, hcontra])
        simp [hexp, hs, hsne, Outcome.isOk]

theorem get_user_by_email_map (f : User → User) (hf : ∀ u, (f u).email = u.email)
    (email : String) (db : DB) :
    get_user_by_email email (db.map f) = (get_user_by_email email db).map f := by
  unfold get_user_by_email
  induction db with
  | nil => rfl
  | cons a l ih =>
      by_cases ha : a.email = email
      · simp [List.find?_cons, ha, hf]
      · simp [List.find?_cons, ha, hf, ih]

theorem get_user_by_email_update_token (email : String) (user : User) (tok : Option Token)
    (db : DB) (h : get_user_by_email email db = some user) :
    get_user_by_email email (update_token user tok db) =
      some { user with refresh_token := tok } := by
  unfold update_token
  rw [get_user_by_email_map _ (fun u => by split <;> rfl) email db, h]
  simp

/-- A concrete confirmed user row used as a test fixture. -/
def u0 : User :=
  { id := 1, username := "alice", email := "a@x.com",
    password := get_password_hash "pw123456", confirmed := true,
    refresh_token := none, avatar := gravatar "a@x.com" }

/-! ### Claims -/

/-- C1: Token scopes are mutually exclusive.  For every subject, issuance
time, decoding time and ttl override, a token issued with one scope is never
accepted (`isOk = false`) by a decoder that expects a different scope, for
all six ordered pairs of the three scopes
(`get_current_user`'s decoder expects `"access_token"`,
`decode_refresh_token` expects `"refresh_token"`,
`get_email_from_token` expects `"email_token"`). -/
theorem token_scopes_mutually_exclusive (issueAt decodeAt : Nat) (sub : String)
    (delta : Option Nat) :
    (decodeAccessScope decodeAt (create_refresh_token issueAt sub delta)).isOk = false ∧
    (decodeAccessScope decodeAt (create_email_token issueAt sub)).isOk = false ∧
    (decode_refresh_token decodeAt (create_access_token issueAt sub delta)).isOk = false ∧
    (decode_refresh_token decodeAt (create_email_token issueAt sub)).isOk = false ∧
    (get_email_from_token decodeAt (create_access_token issueAt sub delta)).isOk = false ∧
    (get_email_from_token decodeAt (create_refresh_token issueAt sub delta)).isOk = false := by
  refine ⟨?_, ?_, ?_, ?_, ?_, ?_⟩
  · exact decodeAccessScope_not_ok_of_wrong_scope decodeAt _ (by simp [create_refresh_token])
  · exact decodeAccessScope_not_ok_of_wrong_scope decodeAt _ (by simp [create_email_token])
  · exact decode_refresh_token_not_ok_of_wrong_scope decodeAt _ (by simp [create_access_token])
  · exact decode_refresh_token_not_ok_of_wrong_scope decodeAt _ (by simp [create_email_token])
  · exact get_email_from_token_not_ok_of_wrong_scope decodeAt _ (by simp [create_access_token])
  · exact get_email_from_token_not_ok_of_wrong_scope decodeAt _ (by simp [create_refresh_token])

/-- C3: Round-trip with expiry.  Decoding a token immediately after issuing
it with the same expected scope returns the subject; once the current time is
past `expires_at` (`exp = now + ttl` for an explicit positive ttl on the
access/refresh lanes, `now + 3 days` on the email lane), the same decode
fails with that decoder's invalid-token error. -/
theorem token_round_trip_with_expiry (now later : Nat) (sub : String) (ttl : Nat)
    (hpos : 0 < ttl) :
    (decodeAccessScope now (create_access_token now sub (some ttl)) = .ok sub) ∧
    (now + ttl < later →
      decodeAccessScope later (create_access_token now sub (some ttl)) =
        .err credentials_exception) ∧
    (decode_refresh_token now (create_refresh_token now sub (some ttl)) = .ok sub) ∧
    (now + ttl < later →
      decode_refresh_token later (create_refresh_token now sub (some ttl)) =
        .err { status_code := 401, detail := "Could not validate credentials" }) ∧
    (get_email_from_token now (create_email_token now sub) = .ok sub) ∧
    (now + 3 * 24 * 60 * 60 < later →
      get_email_from_token later (create_email_token now sub) =
        .err { status_code := 422, detail := "Invalid token for email verification" }) := by
  have hne : ttl ≠ 0 := Nat.pos_iff_ne_zero.mp hpos
  refine ⟨?_, ?_, ?_, ?_, ?_, ?_⟩
  · simp [decodeAccessScope, create_access_token, jwtDecode, hne]
  · intro hlate
    have : now + ttl < later := hlate
    simp [decodeAccessScope, create_access_token, jwtDecode, hne, this]
  · simp [decode_refresh_token, create_refresh_token, jwtDecode, hne]
  · intro hlate
    simp [decode_refresh_token, create_refresh_token, jwtDecode, hne, hlate]
  · simp [get_email_from_token, create_email_token, jwtDecode]
  · intro hlate
    simp [get_email_from_token, create_email_token, jwtDecode, hlate]

/-- C3 witness: concrete instance (subject `"a@x.com"`, issue time 100,
ttl 60, decode at 161 > 160). -/
theorem token_round_trip_with_expiry_witness :
    decodeAccessScope 100 (create_access_token 100 "a@x.com" (some 60)) = .ok "a@x.com" ∧
    decodeAccessScope 161 (create_access_token 100 "a@x.com" (some 60)) =
      .err credentials_exception := by
  have h := token_round_trip_with_expiry 100 161 "a@x.com" 60 (by decide)
  exact ⟨h.1, h.2.1 (by decide)⟩

/-- C6 counterexample: the email-verification decoder does **not** report all
failure conditions as the same error kind: a validly-signed unexpired token
with the wrong scope yields 401 "Invalid scope to token", while an
undecodable token yields 422 "Invalid token for email verification" — two
different error kinds (different status codes) from the same decoder. -/
theorem uniform_decode_error_counterexample :
    get_email_from_token 0 (create_access_token 0 "a@x.com" none) =
      .err { status_code := 401, detail := "Invalid scope to token" } ∧
    get_email_from_token 0 (Token.malformed "garbage") =
      .err { status_code := 422, detail := "Invalid token for email verification" } ∧
    ({ status_code := 401, detail := "Invalid scope to token" } : HTTPError) ≠
      { status_code := 422, detail := "Invalid token for email verification" } := by
  refine ⟨?_, ?_, ?_⟩
  · simp [get_email_from_token, create_access_token, jwtDecode]
  · simp [get_email_from_token, jwtDecode]
  · decide

/-- C6 amended: the access-token decoder reports every failure with the
single `credentials_exception`; the refresh decoder reports every raised
failure with status 401 but distinguishes scope mismatch ("Invalid scope for
token") from signature/malformed/expired failures ("Could not validate
credentials") in the detail; the email decoder reports scope mismatch as 401
"Invalid scope to token" and signature/malformed/expired failures as **422**
"Invalid token for email verification". -/
theorem decode_error_taxonomy (now : Nat) (t : Token) :
    ((decodeAccessScope now t).isOk = false →
      decodeAccessScope now t = .err credentials_exception) ∧
    (∀ e, decode_refresh_token now t = .err e →
      e = { status_code := 401, detail := "Could not validate credentials" } ∨
      e = { status_code := 401, detail := "Invalid scope for token" }) ∧
    (∀ e, get_email_from_token now t = .err e →
      e = { status_code := 422, detail := "Invalid token for email verification" } ∨
      e = { status_code := 401, detail := "Invalid scope to token" }) := by
  refine ⟨?_, ?_, ?_⟩
  · intro hfail
    unfold decodeAccessScope at *
    cases hdec : jwtDecode now SECRET_KEY t with
    | error e => simp [hdec]
    | ok p =>
        simp [hdec] at hfail ⊢
        split at hfail
        · cases hs : p.sub with
          | none => simp_all
          | some s => simp_all [Outcome.isOk]
        · simp_all
  · intro e he
    unfold decode_refresh_token at he
    cases hdec : jwtDecode now SECRET_KEY t with
    | error e2 => simp [hdec] at he; exact Or.inl he.symm
    | ok p =>
        simp [hdec] at he
        cases hs : p.scope with
        | none => simp [hs] at he
        | some s =>
            simp [hs] at he
            split at he
            · cases hsub : p.sub <;> simp_all
            · exact Or.inr (by injection he with h; exact h.symm)
  · intro e he
    unfold get_email_from_token at he
    cases hdec : jwtDecode now SECRET_KEY t with
    | error e2 => simp [hdec] at he; exact Or.inl he.symm
    | ok p =>
        simp [hdec] at he
        cases hs : p.scope with
        | none => simp [hs] at he
        | some s =>
            simp [hs] at he
            split at he
            · cases hsub : p.sub <;> simp_all
            · exact Or.inr (by injection he with h; exact h.symm)

/-- C6 amended witness: at a concrete failing input (a malformed token), the
access decoder reports exactly the credentials exception. -/
theorem decode_error_taxonomy_witness :
    decodeAccessScope 0 (Token.malformed "xyz") = .err credentials_exception := by
  exact (decode_error_taxonomy 0 (Token.malformed "xyz")).1 (by decide)

/-- C5 counterexample: a cache-backend failure **does** fail request-time
identity resolution.  With the subject `"a@x.com"` present in the persistent
store, a Redis read failure makes `get_current_user` crash (the connection
error is not caught), and likewise a Redis write failure on a cache miss
crashes instead of returning the user fetched from the store. -/
theorem cache_failure_counterexample :
    get_current_user 0 (create_access_token 0 "a@x.com" none) [u0]
      { entries := [], getFails := true, setFails := false } = .crash ∧
    get_current_user 0 (create_access_token 0 "a@x.com" none) [u0]
      { entries := [], getFails := false, setFails := true } = .crash := by
  constructor <;> rfl

/-- C5 amended: a cache-backend failure propagates out of `get_current_user`
as an unhandled error instead of falling back to the persistent store: if the
Redis read fails, resolution crashes even when the subject exists in the
store; if the read succeeds with a miss but the write-back fails, resolution
likewise crashes instead of returning the freshly fetched user. -/
theorem cache_outage_propagates (now : Nat) (t : Token) (db : DB) (c : Cache)
    (email : String) (hdec : decodeAccessScope now t = .ok email) :
    (c.getFails = true → get_current_user now t db c = .crash) ∧
    (c.getFails = false → c.setFails = true → cacheLookup now c email = none →
      ∀ u, get_user_by_email email db = some u → get_current_user now t db c = .crash) := by
  constructor
  · intro hg
    unfold get_current_user
    simp [hdec, redisGet, hg]
  · intro hg hs hmiss u hu
    unfold get_current_user
    simp [hdec, redisGet, hg, hmiss, hu, redisSetWithTTL, hs]

/-- C5 amended witness: concrete instance of the read-failure branch. -/
theorem cache_outage_propagates_witness :
    get_current_user 0 (create_access_token 0 "a@x.com" none) [u0]
      { entries := [], getFails := true, setFails := false } = .crash := by
  exact (cache_outage_propagates 0 (create_access_token 0 "a@x.com" none) [u0]
    { entries := [], getFails := true, setFails := false } "a@x.com" (by rfl)).1 rfl

/-- C8: identity-cache resolution.  When the cache backend is healthy: a hit
returns the cached snapshot with the cache unchanged; a miss queries the
persistent store — if the user is found, the snapshot is written back under
the email key with expiry `now + 900` (live for lookups strictly before
`now + 900`, gone at and after it) and the user is returned; if not found,
resolution fails with the 401 `credentials_exception` and the cache is left
unchanged. -/
theorem identity_cache_resolution (now : Nat) (t : Token) (db : DB) (c : Cache)
    (email : String) (hdec : decodeAccessScope now t = .ok email)
    (hget : c.getFails = false) (hset : c.setFails = false) :
    (∀ u, cacheLookup now c email = some u → get_current_user now t db c = .ok (u, c)) ∧
    (cacheLookup now c email = none → get_user_by_email email db = none →
      get_current_user now t db c = .err credentials_exception) ∧
    (∀ u, cacheLookup now c email = none → get_user_by_email email db = some u →
      get_current_user now t db c =
        .ok (u, { c with entries :=
          (email, u, now + 900) :: c.entries.filter (fun e => e.1 ≠ email) }) ∧
      ∀ t2, cacheLookup t2 { c with entries :=
          (email, u, now + 900) :: c.entries.filter (fun e => e.1 ≠ email) } email =
        if t2 < now + 900 then some u else none) := by
  refine ⟨?_, ?_, ?_⟩
  · intro u hu
    unfold get_current_user
    simp [hdec, redisGet, hget, hu]
  · intro hmiss habs
    unfold get_current_user
    simp [hdec, redisGet, hget, hmiss, habs]
  · intro u hmiss hfound
    constructor
    · unfold get_current_user
      simp [hdec, redisGet, hget, hmiss, hfound, redisSetWithTTL, hset]
    · intro t2
      simp [cacheLookup, List.find?_cons]

/-- C8 witness: concrete instance — cache miss, user in the store, healthy
backend: the user is returned and the snapshot cached until `now + 900`. -/
theorem identity_cache_resolution_witness :
    get_current_user 0 (create_access_token 0 "a@x.com" none) [u0]
      { entries := [], getFails := false, setFails := false } =
      .ok (u0, { entries := [("a@x.com", u0, 900)], getFails := false, setFails := false }) := by
  have h := (identity_cache_resolution 0 (create_access_token 0 "a@x.com" none) [u0]
    { entries := [], getFails := false, setFails := false } "a@x.com"
    (by rfl) rfl rfl).2.2 u0 (by rfl) (by rfl)
  exact h.1

/-- C2: refresh rotation and reuse detection.  For a presented token that
decodes with refresh scope and whose subject resolves to a user: if it is not
exactly the stored `refresh_token`, the route clears the stored token
(forced logout) and fails 401 "Invalid refresh token"; otherwise it returns a
fresh access/refresh pair and persists the new refresh token over the old
one. -/
theorem refresh_rotation_and_reuse (now : Nat) (t : Token) (db : DB) (email : String)
    (user : User) (hdec : decode_refresh_token now t = .ok email)
    (huser : get_user_by_email email db = some user) :
    (user.refresh_token ≠ some t →
      (refresh_token_route now t db).out =
        .err { status_code := 401, detail := "Invalid refresh token" } ∧
      get_user_by_email email (refresh_token_route now t db).db =
        some { user with refresh_token := none }) ∧
    (user.refresh_token = some t →
      (refresh_token_route now t db).out =
        .ok { access_token := create_access_token now email none,
              refresh_token := create_refresh_token now email none,
              token_type := "bearer" } ∧
      get_user_by_email email (refresh_token_route now t db).db =
        some { user with refresh_token := some (create_refresh_token now email none) }) := by
  constructor
  · intro hne
    have hres : refresh_token_route now t db =
        { out := .err { status_code := 401, detail := "Invalid refresh token" },
          db := update_token user none db } := by
      unfold refresh_token_route
      simp [hdec, huser, hne]
    rw [hres]
    exact ⟨rfl, by simpa using get_user_by_email_update_token email user none db huser⟩
  · intro heq
    have hres : refresh_token_route now t db =
        { out := .ok { access_token := create_access_token now email none,
                       refresh_token := create_refresh_token now email none,
                       token_type := "bearer" },
          db := update_token user (some (create_refresh_token now email none)) db } := by
      unfold refresh_token_route
      simp [hdec, huser, heq]
    rw [hres]
    refine ⟨rfl, ?_⟩
    simpa using get_user_by_email_update_token email user
      (some (create_refresh_token now email none)) db huser

/-- C2 witness: concrete instance of the reuse branch — the stored token is
`none`, the presented token differs, so the route fails 401 and the stored
token stays cleared. -/
theorem refresh_rotation_and_reuse_witness :
    (refresh_token_route 0 (create_refresh_token 0 "a@x.com" none) [u0]).out =
      .err { status_code := 401, detail := "Invalid refresh token" } := by
  exact ((refresh_rotation_and_reuse 0 (create_refresh_token 0 "a@x.com" none) [u0]
    "a@x.com" u0 (by rfl) (by rfl)).1 (by simp [u0])).1

/-- C4: login behavior.  Lookup by the form's username (the email):
no user → 401 "Invalid email"; not confirmed → 401 "Email is not confirmed";
bad password → 401 "Invalid password", in that order, leaving the store
untouched; otherwise an access token (default ttl 15 minutes) and a refresh
token (default ttl 7 days) are issued, the refresh token is persisted over
the user's previous one, and both are returned. -/
theorem login_behavior (now : Nat) (username password : String) (db : DB) :
    (get_user_by_email username db = none →
      login now username password db =
        { out := .err { status_code := 401, detail := "Invalid email" }, db := db }) ∧
    (∀ user, get_user_by_email username db = some user →
      (user.confirmed = false →
        login now username password db =
          { out := .err { status_code := 401, detail := "Email is not confirmed" },
            db := db }) ∧
      (user.confirmed = true → verify_password password user.password = false →
        login now username password db =
          { out := .err { status_code := 401, detail := "Invalid password" }, db := db }) ∧
      (user.confirmed = true → verify_password password user.password = true →
        (login now username password db).out =
          .ok { access_token := create_access_token now user.email none,
                refresh_token := create_refresh_token now user.email none,
                token_type := "bearer" } ∧
        get_user_by_email username (login now username password db).db =
          some { user with refresh_token := some (create_refresh_token now user.email none) } ∧
        tokenExp (create_access_token now user.email none) = now + 15 * 60 ∧
        tokenExp (create_refresh_token now user.email none) = now + 7 * 24 * 60 * 60)) := by
  constructor
  · intro habs
    unfold login
    simp [habs]
  · intro user huser
    refine ⟨?_, ?_, ?_⟩
    · intro hc
      unfold login
      simp [huser, hc]
    · intro hc hv
      unfold login
      simp [huser, hc, hv]
    · intro hc hv
      have hres : login now username password db =
          { out := .ok { access_token := create_access_token now user.email none,
                         refresh_token := create_refresh_token now user.email none,
                         token_type := "bearer" },
            db := update_token user (some (create_refresh_token now user.email none)) db } := by
        unfold login
        simp [huser, hc, hv]
      rw [hres]
      refine ⟨rfl, ?_, by simp [tokenExp, create_access_token],
        by simp [tokenExp, create_refresh_token]⟩
      simpa using get_user_by_email_update_token username user
        (some (create_refresh_token now user.email none)) db huser

/-- C4 witness: concrete successful login for the confirmed fixture user;
also exercises the failure hypotheses vacuously via the success branch. -/
theorem login_behavior_witness :
    (login 0 "a@x.com" "pw123456" [u0]).out =
      .ok { access_token := create_access_token 0 "a@x.com" none,
            refresh_token := create_refresh_token 0 "a@x.com" none,
            token_type := "bearer" } := by
  exact (((login_behavior 0 "a@x.com" "pw123456" [u0]).2 u0 (by rfl)).2.2
    (by rfl) (by rfl)).1

/-- C9: signup conflict.  If a user with the body's email exists, signup
fails 409 "Account already exists" and the store is unchanged; otherwise a
single new user is appended whose password is the hash of the submitted
password, whose `confirmed` flag is false, and which is returned. -/
theorem signup_conflict_or_create (body : UserModel) (db : DB) :
    (∀ u, get_user_by_email body.email db = some u →
      (signup body db).out = .err { status_code := 409, detail := "Account already exists" } ∧
      (signup body db).db = db) ∧
    (get_user_by_email body.email db = none →
      ∃ nu, (signup body db).out = .ok nu ∧ (signup body db).db = db ++ [nu] ∧
        nu.confirmed = false ∧ nu.password = get_password_hash body.password ∧
        nu.email = body.email ∧ nu.username = body.username) := by
  constructor
  · intro u hu
    unfold signup
    simp [hu]
  · intro habs
    unfold signup create_user
    simp only [habs]
    exact ⟨_, rfl, rfl, rfl, rfl, rfl, rfl⟩

/-- C9 witness: re-registering the fixture user's email against a store that
already holds it fails 409 and leaves the store unchanged. -/
theorem signup_conflict_witness :
    (signup { username := "bob", password := "pw999999", email := "a@x.com" } [u0]).out =
      .err { status_code := 409, detail := "Account already exists" } ∧
    (signup { username := "bob", password := "pw999999", email := "a@x.com" } [u0]).db =
      [u0] := by
  exact (signup_conflict_or_create
    { username := "bob", password := "pw999999", email := "a@x.com" } [u0]).1 u0 (by rfl)

/-- Preservation of the `confirmed` flag: every already-confirmed row of the
store survives into the updated store with the same id and email and still
confirmed. -/
def confirmedPreserved (db db2 : DB) : Prop :=
  ∀ u ∈ db, u.confirmed = true →
    ∃ u2 ∈ db2, u2.id = u.id ∧ u2.email = u.email ∧ u2.confirmed = true

theorem confirmedPreserved_refl (db : DB) : confirmedPreserved db db :=
  fun u hu hc => ⟨u, hu, rfl, rfl, hc⟩

theorem confirmedPreserved_map (db : DB) (f : User → User)
    (hid : ∀ u, (f u).id = u.id) (hemail : ∀ u, (f u).email = u.email)
    (hconf : ∀ u, u.confirmed = true → (f u).confirmed = true) :
    confirmedPreserved db (db.map f) :=
  fun u hu hc => ⟨f u, List.mem_map_of_mem f hu, hid u, hemail u, hconf u hc⟩

theorem confirmedPreserved_append (db : DB) (l : List User) :
    confirmedPreserved db (db ++ l) :=
  fun u hu hc => ⟨u, List.mem_append_left l hu, rfl, rfl, hc⟩

theorem confirmedPreserved_update_token (db : DB) (user : User) (tok : Option Token) :
    confirmedPreserved db (update_token user tok db) := by
  unfold update_token
  exact confirmedPreserved_map db _ (fun u => by split <;> rfl)
    (fun u => by split <;> rfl) (fun u hc => by split <;> simpa)

theorem signup_preserves (body : UserModel) (db : DB) :
    confirmedPreserved db (signup body db).db := by
  cases hu : get_user_by_email body.email db with
  | some u =>
      simp only [signup, hu]
      exact confirmedPreserved_refl db
  | none =>
      simp only [signup, hu, create_user]
      exact confirmedPreserved_append db _

theorem login_preserves (now : Nat) (un pw : String) (db : DB) :
    confirmedPreserved db (login now un pw db).db := by
  cases hu : get_user_by_email un db with
  | none =>
      simp only [login, hu]
      exact confirmedPreserved_refl db
  | some user =>
      by_cases hc : user.confirmed
      · by_cases hv : verify_password pw user.password
        · simp only [login, hu, hc, hv]
          simp
          exact confirmedPreserved_update_token db user _
        · simp only [login, hu]
          simp [hc, hv]
          exact confirmedPreserved_refl db
      · simp only [login, hu]
        simp [hc]
        exact confirmedPreserved_refl db

theorem refresh_preserves (now : Nat) (t : Token) (db : DB) :
    confirmedPreserved db (refresh_token_route now t db).db := by
  cases hdec : decode_refresh_token now t with
  | err e =>
      simp only [refresh_token_route, hdec]
      exact confirmedPreserved_refl db
  | crash =>
      simp only [refresh_token_route, hdec]
      exact confirmedPreserved_refl db
  | ok email =>
      cases hu : get_user_by_email email db with
      | none =>
          simp only [refresh_token_route, hdec, hu]
          exact confirmedPreserved_refl db
      | some user =>
          by_cases hne : user.refresh_token = some t
          · simp only [refresh_token_route, hdec, hu]
            simp [hne]
            exact confirmedPreserved_update_token db user _
          · simp only [refresh_token_route, hdec, hu]
            simp [hne]
            exact confirmedPreserved_update_token db user none

theorem confirm_route_preserves (now : Nat) (t : Token) (db : DB) :
    confirmedPreserved db (confirmed_email_route now t db).db := by
  cases hdec : get_email_from_token now t with
  | err e =>
      simp only [confirmed_email_route, hdec]
      exact confirmedPreserved_refl db
  | crash =>
      simp only [confirmed_email_route, hdec]
      exact confirmedPreserved_refl db
  | ok email =>
      cases hu : get_user_by_email email db with
      | none =>
          simp only [confirmed_email_route, hdec, hu]
          exact confirmedPreserved_refl db
      | some user =>
          by_cases hc : user.confirmed
          · simp only [confirmed_email_route, hdec, hu]
            simp [hc]
            exact confirmedPreserved_refl db
          · simp only [confirmed_email_route, hdec, hu, repo_confirmed_email]
            simp [hc]
            exact confirmedPreserved_map db _ (fun u => by split <;> rfl)
              (fun u => by split <;> rfl) (fun u hcc => by split <;> simp [hcc])

theorem avatar_preserves (email url : String) (db db2 : DB)
    (h : update_avatar email url db = .ok db2) :
    confirmedPreserved db db2 := by
  unfold update_avatar at h
  cases hu : get_user_by_email email db with
  | none => simp [hu] at h
  | some user =>
      simp only [hu, Outcome.ok.injEq] at h
      subst h
      exact confirmedPreserved_map db _ (fun u => by split <;> rfl)
        (fun u => by split <;> rfl) (fun u hcc => by split <;> simpa)

/-- C7: confirm is idempotent after the first success, and the `confirmed`
flag is monotone.  For an already-confirmed user and a valid
email-verification token for them, the confirm route reports "Your email is
already confirmed", leaves the store unchanged, and reports the same again
on any repetition; moreover no operation (signup, login, refresh, confirm,
avatar update) ever turns a confirmed row back to unconfirmed. -/
theorem confirm_idempotent_and_monotone (now : Nat) (t : Token) (db : DB)
    (email : String) (user : User)
    (hdec : get_email_from_token now t = .ok email)
    (huser : get_user_by_email email db = some user)
    (hconf : user.confirmed = true) :
    (confirmed_email_route now t db).out = .ok "Your email is already confirmed" ∧
    (confirmed_email_route now t db).db = db ∧
    (confirmed_email_route now t (confirmed_email_route now t db).db).out =
      .ok "Your email is already confirmed" ∧
    (∀ body, confirmedPreserved db (signup body db).db) ∧
    (∀ n un pw, confirmedPreserved db (login n un pw db).db) ∧
    (∀ n tk, confirmedPreserved db (refresh_token_route n tk db).db) ∧
    (∀ n tk, confirmedPreserved db (confirmed_email_route n tk db).db) ∧
    (∀ em url db2, update_avatar em url db = .ok db2 → confirmedPreserved db db2) := by
  have hres : confirmed_email_route now t db =
      { out := .ok "Your email is already confirmed", db := db } := by
    unfold confirmed_email_route
    simp [hdec, huser, hconf]
  refine ⟨by rw [hres], by rw [hres], by rw [hres]; rw [hres],
    fun body => signup_preserves body db,
    fun n un pw => login_preserves n un pw db,
    fun n tk => refresh_preserves n tk db,
    fun n tk => confirm_route_preserves n tk db,
    fun em url db2 h => avatar_preserves em url db db2 h⟩

/-- C7 witness: the fixture user is confirmed; confirming again with a fresh
valid email token reports "already confirmed". -/
theorem confirm_idempotent_witness :
    (confirmed_email_route 0 (create_email_token 0 "a@x.com") [u0]).out =
      .ok "Your email is already confirmed" := by
  exact (confirm_idempotent_and_monotone 0 (create_email_token 0 "a@x.com") [u0]
    "a@x.com" u0 (by rfl) (by rfl) (by rfl)).1

/-- C10: the refresh route never checks that the decoded subject exists: for
every token that decodes successfully with refresh scope but whose subject
has no user row, `user.refresh_token` is evaluated on `None`, raising an
unhandled `AttributeError` (crash) instead of a controlled 401. -/
theorem refresh_missing_user_crash (now : Nat) (t : Token) (db : DB) (email : String)
    (hdec : decode_refresh_token now t = .ok email)
    (habsent : get_user_by_email email db = none) :
    (refresh_token_route now t db).out = .crash := by
  unfold refresh_token_route
  simp [hdec, habsent]

/-- C10 witness: a refresh token for `"ghost@x.com"` against an empty user
store crashes the refresh route. -/
theorem refresh_missing_user_crash_witness :
    (refresh_token_route 0 (create_refresh_token 0 "ghost@x.com" none) []).out = .crash := by
  exact refresh_missing_user_crash 0 (create_refresh_token 0 "ghost@x.com" none) [] "ghost@x.com"
    (by simp [decode_refresh_token, create_refresh_token, jwtDecode])
    (by simp [get_user_by_email])

end HW14
